import Mathlib

/-!
Verification development for the ray-cast raw LiDAR sensor
(`Unreal/CarlaUE4/Plugins/Carla/Source/Carla/Sensor/RayCastRawLidar.cpp`).

Shallow embedding conventions:
- Exact arithmetic replaces `float`: the scheduler and beam geometry are
  modelled over the rationals, and the detection geometry over the reals
  (a square root is needed for vector normalisation).
- The external collaborators (physics ray query, pre-filter hook, object
  registry) are parameters of the modelled functions.
- `FLidarRawData` is declared outside this translation unit; it is
  modelled from the spec of the Point Buffer (see below).
-/

namespace Carla

/-! ## Rational helpers for the scan scheduler -/

/-- Truncation toward zero on the rationals: the integer part used by
`std::fmod`.  For a nonnegative argument it agrees with the floor. -/
def ratTrunc (q : ℚ) : ℤ := if 0 ≤ q then ⌊q⌋ else ⌈q⌉

/-- Model of `std::fmod x y`: `x - y * trunc (x / y)`. -/
def fmodQ (x y : ℚ) : ℚ := x - y * ratTrunc (x / y)

/-- Model of `FMath::RoundHalfFromZero`: rounds to the nearest integer,
ties away from zero. -/
def RoundHalfFromZero (q : ℚ) : ℤ := if 0 ≤ q then ⌊q + 1/2⌋ else ⌈q - 1/2⌉

/-! ## Sensor description -/

/-- The fields of `FLidarDescription` used by this translation unit. -/
structure FLidarDescription where
  Channels : ℕ
  UpperFovLimit : ℚ
  LowerFovLimit : ℚ
  PointsPerSecond : ℚ
  RotationFrequency : ℚ
  Range : ℚ
deriving DecidableEq

/-- Model of `PointsToScanWithOneLaser` from `SimulateLidar`: the per-channel ray
budget of one step.  The source stores the rounded value in a `uint32`;
for the physical nonnegative inputs the value is nonnegative, and `toNat`
is the identity on it. -/
def PointsToScanWithOneLaser (d : FLidarDescription) (dt : ℚ) : ℕ :=
  (RoundHalfFromZero (d.PointsPerSecond * dt / (d.Channels : ℚ))).toNat

/-- Model of `AngleDistanceOfTick` from `SimulateLidar`: degrees swept this step. -/
def AngleDistanceOfTick (d : FLidarDescription) (dt : ℚ) : ℚ :=
  d.RotationFrequency * 360 * dt

/-- Model of `AngleDistanceOfLaserMeasure` from `SimulateLidar`: the angular stride
between two consecutively indexed rays of one channel. -/
def AngleDistanceOfLaserMeasure (d : FLidarDescription) (dt : ℚ) : ℚ :=
  AngleDistanceOfTick d dt / (PointsToScanWithOneLaser d dt : ℚ)

/-! ## Beam array (`CreateLasers`) -/

/-- Model of `CreateLasers`: derives the per-channel vertical angles.  The source
asserts `check(NumberOfLasers > 0u)`; the assertion failure is modelled as
`none`.  For one channel the ternary avoids the division entirely. -/
def CreateLasers (NumberOfLasers : ℕ) (UpperFovLimit LowerFovLimit : ℚ) :
    Option (List ℚ) :=
  if NumberOfLasers = 0 then none
  else
    some ((List.range NumberOfLasers).map (fun (i : ℕ) =>
      UpperFovLimit - (i : ℚ) *
        (if NumberOfLasers = 1 then 0
         else (UpperFovLimit - LowerFovLimit) /
           (((NumberOfLasers - 1 : ℕ)) : ℚ))))

/-- Model of `ARayCastRawLidar::Set(FLidarDescription)` rebuilds the beam array
from the stored description. -/
def SetDescription (d : FLidarDescription) : Option (List ℚ) :=
  CreateLasers d.Channels d.UpperFovLimit d.LowerFovLimit

/-! ## Point buffer

Modelled from the spec: `FLidarRawData` (the Point Buffer of spec section
4.5) is declared outside this translation unit; only its use sites are in
`src`.  Per the spec, `ResetSerPoints` (begin_step) clears the stored
detections and records the per-channel counts, `WritePointSync` (append)
adds one detection, and the buffer also persists the sweep angle.  The
source stores the sweep angle in radians and converts with
`ToDegrees`/`ToRadians` on every access; the two conversions cancel
exactly in real arithmetic, so the model keeps the angle in degrees. -/
structure FLidarRawData (δ : Type) where
  HorizontalAngleDeg : ℚ
  serCounts : List ℕ
  serPoints : List δ
deriving DecidableEq

/-- Modelled from the spec: `FLidarRawData::ResetSerPoints` records the
per-channel counts and clears the stored detections. -/
def ResetSerPoints {δ : Type} (data : FLidarRawData δ)
    (PointsPerChannel : List ℕ) : FLidarRawData δ :=
  { data with serCounts := PointsPerChannel, serPoints := [] }

/-- Modelled from the spec: `FLidarRawData::WritePointSync` appends one
detection to the buffer. -/
def WritePointSync {δ : Type} (data : FLidarRawData δ) (detection : δ) :
    FLidarRawData δ :=
  { data with serPoints := data.serPoints ++ [detection] }

/-! ## Per-ray outcome and per-channel casting -/

/-- The body of the innermost `ParallelFor` task for one (channel, index)
pair: the pre-filter hook may veto the ray; otherwise the external
intersection primitive (`ShootLaser`) is queried.  Both hooks are
collaborators and appear as parameters. -/
def rayOutcome {η : Type} (PreprocessRay : ℚ → ℚ → Bool)
    (ShootLaser : ℚ → ℚ → Option η) (VertAngle HorizAngle : ℚ) : Option η :=
  if PreprocessRay VertAngle HorizAngle then ShootLaser VertAngle HorizAngle
  else none

/-- All hits recorded for one channel in one step: ray index `p` uses the
horizontal angle `start + stride * p`. -/
def channelHits {η : Type} (PreprocessRay : ℚ → ℚ → Bool)
    (ShootLaser : ℚ → ℚ → Option η) (VertAngle start stride : ℚ)
    (count : ℕ) : List η :=
  (List.range count).filterMap (fun (p : ℕ) =>
    rayOutcome PreprocessRay ShootLaser VertAngle (start + stride * (p : ℚ)))

/-! ## Detection saving and the step -/

/-- Model of `ComputeAndSaveDetections`: sizes the buffer from the recorded hit
counts, then writes every detection channel by channel.  The per-hit
conversion (`ComputeRawDetection` plus the sensor transform) appears as
the parameter `computeDetection`. -/
def ComputeAndSaveDetections {η δ : Type} (computeDetection : η → δ)
    (RecordedHits : List (List η)) (data : FLidarRawData δ) :
    FLidarRawData δ :=
  let PointsPerChannel := RecordedHits.map List.length
  let data1 := ResetSerPoints data PointsPerChannel
  RecordedHits.foldl
    (fun b ch => ch.foldl (fun b2 h => WritePointSync b2 (computeDetection h)) b)
    data1

/-- Result of one `SimulateLidar` call: the updated raw-data buffer, the
transient per-channel hits of this step, and whether the underfilled-step
warning was logged. -/
structure SimOutcome (η δ : Type) where
  data : FLidarRawData δ
  RecordedHits : List (List η)
  warned : Bool
deriving DecidableEq

/-- Model of `SimulateLidar`: one simulation step.  When the per-channel budget
rounds to zero the source logs a warning and returns before touching any
state.  Otherwise it casts `Channels × points` rays (the nested
`ParallelFor`; membership per channel is schedule-independent, see the
schedule model below), saves the detections, and advances the sweep angle
by `fmod(current + AngleDistanceOfTick, 360)`.  The source also asserts
`check(ChannelCount == LaserAngles.Num())`, an invariant established by
`Set`, which sizes both from the same description. -/
def SimulateLidar {η δ : Type} (d : FLidarDescription) (dt : ℚ)
    (PreprocessRay : ℚ → ℚ → Bool) (ShootLaser : ℚ → ℚ → Option η)
    (computeDetection : η → δ) (LaserAngles : List ℚ)
    (data : FLidarRawData δ) : SimOutcome η δ :=
  let points := PointsToScanWithOneLaser d dt
  if points = 0 then
    { data := data, RecordedHits := [], warned := true }
  else
    let CurrentHorizontalAngle := data.HorizontalAngleDeg
    let stride := AngleDistanceOfLaserMeasure d dt
    let hits := (List.range d.Channels).map (fun c =>
      channelHits PreprocessRay ShootLaser (LaserAngles.getD c 0)
        CurrentHorizontalAngle stride points)
    let data1 := ComputeAndSaveDetections computeDetection hits data
    let data2 := { data1 with
      HorizontalAngleDeg :=
        fmodQ (CurrentHorizontalAngle + AngleDistanceOfTick d dt) 360 }
    { data := data2, RecordedHits := hits, warned := false }

/-- Model of `Tick`: runs the step, then hands the raw-data buffer to the emission
path (`DataStream.Send(*this, LidarRawData, ...)`).  The second component
is exactly the buffer handed to emission. -/
def Tick {η δ : Type} (d : FLidarDescription) (dt : ℚ)
    (PreprocessRay : ℚ → ℚ → Bool) (ShootLaser : ℚ → ℚ → Option η)
    (computeDetection : η → δ) (LaserAngles : List ℚ)
    (data : FLidarRawData δ) : SimOutcome η δ × FLidarRawData δ :=
  let o := SimulateLidar d dt PreprocessRay ShootLaser computeDetection
    LaserAngles data
  (o, o.data)

/-- Iterated steps of fixed `dt`, for the N-step sweep invariant. -/
def sweepIter {η δ : Type} (d : FLidarDescription) (dt : ℚ)
    (PreprocessRay : ℚ → ℚ → Bool) (ShootLaser : ℚ → ℚ → Option η)
    (computeDetection : η → δ) (LaserAngles : List ℚ)
    (data : FLidarRawData δ) : ℕ → FLidarRawData δ
  | 0 => data
  | n + 1 =>
    (SimulateLidar d dt PreprocessRay ShootLaser computeDetection LaserAngles
      (sweepIter d dt PreprocessRay ShootLaser computeDetection LaserAngles
        data n)).data

/-! ## Schedule model of the parallel casting phase

The nested `ParallelFor` creates one task per (channel, ray-index) pair.
One `FCriticalSection` is declared in the body of the outer per-channel
lambda and captured by reference by all of that channel`s point tasks, so
appends to one channel`s `RecordedHits` entry are mutually exclusive,
while different channels write disjoint entries and share no lock.
Consequently every concurrent execution of the phase is equivalent to
executing the tasks one at a time in some order; the model below
quantifies over all such orders (schedules), including arbitrary
interleavings across channels. -/

/-- One task of the casting phase: task `(c, p)` appends its hit, if any,
to channel `c`.  `hitAt c p` is the composite outcome of the pre-filter
hook and the intersection primitive for that task. -/
def execTask {η : Type} (hitAt : ℕ → ℕ → Option η) (st : ℕ → List η)
    (t : ℕ × ℕ) : ℕ → List η :=
  match hitAt t.1 t.2 with
  | none => st
  | some h => Function.update st t.1 (st t.1 ++ [h])

/-- Executes a whole schedule of tasks. -/
def runSchedule {η : Type} (hitAt : ℕ → ℕ → Option η) (st : ℕ → List η)
    (sched : List (ℕ × ℕ)) : ℕ → List η :=
  sched.foldl (execTask hitAt) st

/-- The task set of one step: every (channel, ray-index) pair. -/
def allTasks (Channels points : ℕ) : List (ℕ × ℕ) :=
  (List.range Channels).flatMap (fun c =>
    (List.range points).map (fun p => (c, p)))

/-! ## Detection geometry (over the reals) -/

/-- Model of `FVector` with exact real coordinates. -/
structure Vec3 where
  x : ℝ
  y : ℝ
  z : ℝ

/-- Model of `FVector::DotProduct`. -/
def dot3 (a b : Vec3) : ℝ := a.x * b.x + a.y * b.y + a.z * b.z

/-- Componentwise difference of vectors. -/
def sub3 (a b : Vec3) : Vec3 := ⟨a.x - b.x, a.y - b.y, a.z - b.z⟩

/-- Componentwise negation. -/
def neg3 (a : Vec3) : Vec3 := ⟨-a.x, -a.y, -a.z⟩

/-- Scalar multiple. -/
def smul3 (c : ℝ) (a : Vec3) : Vec3 := ⟨c * a.x, c * a.y, c * a.z⟩

/-- Model of `FVector::Size`, the Euclidean length. -/
noncomputable def size3 (a : Vec3) : ℝ := Real.sqrt (dot3 a a)

/-- Model of `FVector::GetSafeNormal`: the zero vector when the length vanishes
(the float code tests the squared length against a small tolerance; the
exact model tests it against zero), otherwise the unit vector. -/
noncomputable def GetSafeNormal (a : Vec3) : Vec3 :=
  if dot3 a a = 0 then ⟨0, 0, 0⟩ else smul3 (size3 a)⁻¹ a

/-- Model of `FTransform` restricted to what this translation unit uses: a
rotation (stored as the three rows of its matrix) and a translation.
Unreal rotations are unit quaternions, whose matrices are orthonormal. -/
structure FTransform where
  rotX : Vec3
  rotY : Vec3
  rotZ : Vec3
  loc : Vec3

/-- Model of `FTransform::TransformPosition`: rotate, then translate. -/
def TransformPosition (T : FTransform) (p : Vec3) : Vec3 :=
  ⟨dot3 T.rotX p + T.loc.x, dot3 T.rotY p + T.loc.y, dot3 T.rotZ p + T.loc.z⟩

/-- Model of `SensorTransf.Inverse().TransformPosition p`: subtract the
translation and apply the inverse rotation.  For the orthonormal matrix
of a unit quaternion the inverse is the transpose, which is what
`FTransform::Inverse` (quaternion conjugation) computes. -/
def InverseTransformPosition (T : FTransform) (p : Vec3) : Vec3 :=
  ⟨T.rotX.x * (p.x - T.loc.x) + T.rotY.x * (p.y - T.loc.y) +
     T.rotZ.x * (p.z - T.loc.z),
   T.rotX.y * (p.x - T.loc.x) + T.rotY.y * (p.y - T.loc.y) +
     T.rotZ.y * (p.z - T.loc.z),
   T.rotX.z * (p.x - T.loc.x) + T.rotY.z * (p.y - T.loc.y) +
     T.rotZ.z * (p.z - T.loc.z)⟩

/-! ## Semantic resolution and `ComputeRawDetection` -/

/-- The sentinel `ECityObjectLabel::None`, cast to `uint32` in the
source.  Labels are opaque numeric values here; `0` stands for the
sentinel. -/
def CityObjectLabelNone : ℕ := 0

/-- The fields of `FActorInfo` used here: `Description.UId` flattened to
`UId`, and the semantic tag set (`TSet` of labels; modelled as a
duplicate-free list, whose length is `Num()` and whose head is the
element produced by `CreateConstIterator` when there is exactly one). -/
structure FActorInfo where
  UId : ℕ
  SemanticTags : List ℕ
deriving DecidableEq

/-- Model of `FActorView`: validity flag plus the actor-info pointer
(`GetActorInfo` may return null, modelled as `none`). -/
structure FActorView where
  IsValid : Bool
  ActorInfo : Option FActorInfo
deriving DecidableEq

/-- The semantic-resolution tail of `ComputeRawDetection` (hit-object
handle to `(object_idx, object_tag)`).  `Find` is the external registry
lookup (`FActorRegistry::Find`).  The source dereferences
`ActorInfo->Description.UId` BEFORE testing `ActorInfo != nullptr`; a
null pointer there is undefined behaviour, modelled as `none`. -/
def ResolveSemantics {H : Type} (Find : H → FActorView) (actor : Option H) :
    Option (ℕ × ℕ) :=
  match actor with
  | none => some (0, CityObjectLabelNone)
  | some a =>
    let view := Find a
    if view.IsValid then
      match view.ActorInfo with
      | none => none
      | some info =>
        some (info.UId,
          if info.SemanticTags.length = 1 then
            info.SemanticTags.headD CityObjectLabelNone
          else CityObjectLabelNone)
    else some (0, CityObjectLabelNone)

/-- The guarded variant in which the null test precedes the dereference,
so the ActorInfo-null branch keeps the defaults instead of crashing.
Used to state that, when every valid view carries a non-null info, the
source behaves exactly like this total function. -/
def ResolveSemanticsGuarded {H : Type} (Find : H → FActorView)
    (actor : Option H) : ℕ × ℕ :=
  match actor with
  | none => (0, CityObjectLabelNone)
  | some a =>
    let view := Find a
    if view.IsValid then
      match view.ActorInfo with
      | none => (0, CityObjectLabelNone)
      | some info =>
        (info.UId,
          if info.SemanticTags.length = 1 then
            info.SemanticTags.headD CityObjectLabelNone
          else CityObjectLabelNone)
    else (0, CityObjectLabelNone)

/-- The fields of `FHitResult` consumed by `ComputeRawDetection`: the
world-frame impact point and normal, and the hit-object handle
(`HitInfo.Actor.Get()`, null modelled as `none`). -/
structure FHitResult (H : Type) where
  ImpactPoint : Vec3
  ImpactNormal : Vec3
  Actor : Option H

/-- Model of `FRawDetection`. -/
structure FRawDetection where
  point : Vec3
  cos_inc_angle : ℝ
  object_idx : ℕ
  object_tag : ℕ

/-- Model of `ComputeRawDetection`: sensor-local point, incidence cosine
(`dot(-(HitPoint - Location).GetSafeNormal(), ImpactNormal)`), and the
semantic resolution.  The result is `none` exactly when the semantic
part hits the null dereference modelled above. -/
noncomputable def ComputeRawDetection {H : Type} (Find : H → FActorView)
    (HitInfo : FHitResult H) (SensorTransf : FTransform) :
    Option FRawDetection :=
  (ResolveSemantics Find HitInfo.Actor).map (fun it =>
    { point := InverseTransformPosition SensorTransf HitInfo.ImpactPoint
      cos_inc_angle :=
        dot3 (neg3 (GetSafeNormal (sub3 HitInfo.ImpactPoint SensorTransf.loc)))
          HitInfo.ImpactNormal
      object_idx := it.1
      object_tag := it.2 })

/-! ## Helper lemmas: `fmod` on nonnegative arguments -/

lemma ratTrunc_of_nonneg {q : ℚ} (h : 0 ≤ q) : ratTrunc q = ⌊q⌋ := if_pos h

lemma fmodQ_eq_sub_floor {x y : ℚ} (hx : 0 ≤ x) (hy : 0 < y) :
    fmodQ x y = x - y * ⌊x / y⌋ := by
  unfold fmodQ
  rw [ratTrunc_of_nonneg (div_nonneg hx hy.le)]

lemma fmodQ_nonneg {x y : ℚ} (hx : 0 ≤ x) (hy : 0 < y) : 0 ≤ fmodQ x y := by
  rw [fmodQ_eq_sub_floor hx hy]
  have h1 : (⌊x / y⌋ : ℚ) ≤ x / y := Int.floor_le _
  have h2 : y * (⌊x / y⌋ : ℚ) ≤ y * (x / y) :=
    mul_le_mul_of_nonneg_left h1 hy.le
  have h3 : y * (x / y) = x := mul_div_cancel₀ x hy.ne'
  linarith

lemma fmodQ_lt {x y : ℚ} (hx : 0 ≤ x) (hy : 0 < y) : fmodQ x y < y := by
  rw [fmodQ_eq_sub_floor hx hy]
  have h1 : x / y < (⌊x / y⌋ : ℚ) + 1 := Int.lt_floor_add_one _
  have h2 : x < ((⌊x / y⌋ : ℚ) + 1) * y := (div_lt_iff₀ hy).mp h1
  nlinarith

lemma fmodQ_sub_mul_int {x y : ℚ} (k : ℤ) (hx : 0 ≤ x) (hxk : 0 ≤ x - y * k)
    (hy : 0 < y) : fmodQ (x - y * k) y = fmodQ x y := by
  rw [fmodQ_eq_sub_floor hxk hy, fmodQ_eq_sub_floor hx hy]
  have h1 : (x - y * k) / y = x / y - k := by
    field_simp
  rw [h1, Int.floor_sub_int]
  push_cast
  ring

lemma fmodQ_add_step {a b : ℚ} (ha : 0 ≤ a) (hb : 0 ≤ b) :
    fmodQ (fmodQ a 360 + b) 360 = fmodQ (a + b) 360 := by
  have h360 : (0 : ℚ) < 360 := by norm_num
  have hfa : fmodQ a 360 = a - 360 * ⌊a / 360⌋ := fmodQ_eq_sub_floor ha h360
  have key : fmodQ a 360 + b = (a + b) - 360 * ⌊a / 360⌋ := by
    rw [hfa]; ring
  have hnn : 0 ≤ (a + b) - 360 * (⌊a / 360⌋ : ℚ) := by
    rw [← key]
    exact add_nonneg (fmodQ_nonneg ha h360) hb
  rw [key, fmodQ_sub_mul_int ⌊a / 360⌋ (by linarith) hnn h360]

/-! ## Helper lemmas: the step and the buffer -/

lemma SimulateLidar_angle {η δ : Type} (d : FLidarDescription) (dt : ℚ)
    (pf : ℚ → ℚ → Bool) (sh : ℚ → ℚ → Option η) (cmp : η → δ)
    (angles : List ℚ) (data : FLidarRawData δ)
    (h : PointsToScanWithOneLaser d dt ≠ 0) :
    (SimulateLidar d dt pf sh cmp angles data).data.HorizontalAngleDeg =
      fmodQ (data.HorizontalAngleDeg + AngleDistanceOfTick d dt) 360 := by
  simp [SimulateLidar, h]

lemma AngleDistanceOfTick_nonneg {d : FLidarDescription} {dt : ℚ}
    (hr : 0 ≤ d.RotationFrequency) (ht : 0 ≤ dt) :
    0 ≤ AngleDistanceOfTick d dt := by
  unfold AngleDistanceOfTick
  have : (0 : ℚ) ≤ d.RotationFrequency * 360 := by linarith
  exact mul_nonneg this ht

/-- Claim C1: for every step that casts at least one ray the persisted
sweep angle advances to `(start + RotationFrequency * 360 * dt) mod 360`,
independently of the hooks (hence of how many rays hit or missed); after
`N` such steps of fixed `dt` from angle `0` it equals
`(RotationFrequency * 360 * dt * N) mod 360`; and the persisted value is
always wrapped to `[0, 360)` degrees. -/
theorem c1_sweep_angle {η δ : Type} (d : FLidarDescription) (dt : ℚ)
    (pf : ℚ → ℚ → Bool) (sh : ℚ → ℚ → Option η) (cmp : η → δ)
    (angles : List ℚ) (data : FLidarRawData δ)
    (h1 : 1 ≤ PointsToScanWithOneLaser d dt)
    (hr : 0 ≤ d.RotationFrequency) (ht : 0 ≤ dt)
    (hz : data.HorizontalAngleDeg = 0) :
    (∀ (η2 δ2 : Type) (pf2 : ℚ → ℚ → Bool) (sh2 : ℚ → ℚ → Option η2)
        (cmp2 : η2 → δ2) (angles2 : List ℚ) (data2 : FLidarRawData δ2),
      (SimulateLidar d dt pf2 sh2 cmp2 angles2 data2).data.HorizontalAngleDeg =
        fmodQ (data2.HorizontalAngleDeg + AngleDistanceOfTick d dt) 360) ∧
    (∀ n : ℕ,
      (sweepIter d dt pf sh cmp angles data n).HorizontalAngleDeg =
        fmodQ (AngleDistanceOfTick d dt * n) 360) ∧
    (∀ n : ℕ,
      0 ≤ (sweepIter d dt pf sh cmp angles data n).HorizontalAngleDeg ∧
      (sweepIter d dt pf sh cmp angles data n).HorizontalAngleDeg < 360) := by
  have hne : PointsToScanWithOneLaser d dt ≠ 0 := by omega
  have hadv : 0 ≤ AngleDistanceOfTick d dt := AngleDistanceOfTick_nonneg hr ht
  have h360 : (0 : ℚ) < 360 := by norm_num
  have hstep : ∀ (η2 δ2 : Type) (pf2 : ℚ → ℚ → Bool) (sh2 : ℚ → ℚ → Option η2)
      (cmp2 : η2 → δ2) (angles2 : List ℚ) (data2 : FLidarRawData δ2),
      (SimulateLidar d dt pf2 sh2 cmp2 angles2 data2).data.HorizontalAngleDeg =
        fmodQ (data2.HorizontalAngleDeg + AngleDistanceOfTick d dt) 360 :=
    fun η2 δ2 pf2 sh2 cmp2 angles2 data2 =>
      SimulateLidar_angle d dt pf2 sh2 cmp2 angles2 data2 hne
  have hiter : ∀ n : ℕ,
      (sweepIter d dt pf sh cmp angles data n).HorizontalAngleDeg =
        fmodQ (AngleDistanceOfTick d dt * n) 360 := by
    intro n
    induction n with
    | zero =>
      simp [sweepIter, hz, fmodQ, ratTrunc]
    | succ n ih =>
      have : (sweepIter d dt pf sh cmp angles data (n + 1)).HorizontalAngleDeg =
          fmodQ ((sweepIter d dt pf sh cmp angles data n).HorizontalAngleDeg +
            AngleDistanceOfTick d dt) 360 := by
        simp only [sweepIter]
        exact hstep η δ pf sh cmp angles _
      rw [this, ih,
        fmodQ_add_step (mul_nonneg hadv (Nat.cast_nonneg n)) hadv]
      push_cast
      ring_nf
  refine ⟨hstep, hiter, fun n => ?_⟩
  rw [hiter n]
  exact ⟨fmodQ_nonneg (mul_nonneg hadv (Nat.cast_nonneg n)) h360,
    fmodQ_lt (mul_nonneg hadv (Nat.cast_nonneg n)) h360⟩

/-- Witness for C1 at a concrete configuration: one channel, ten points
per second, an eighth of a rotation per second, `dt = 1`. -/
theorem c1_sweep_angle_witness :
    (1 ≤ PointsToScanWithOneLaser ⟨1, 0, 0, 10, 1/8, 100⟩ 1 ∧
      (0 : ℚ) ≤ (FLidarDescription.mk 1 0 0 10 (1/8) 100).RotationFrequency ∧
      (0 : ℚ) ≤ 1 ∧
      (FLidarRawData.mk 0 [] [] : FLidarRawData ℕ).HorizontalAngleDeg = 0) ∧
    ((∀ (η2 δ2 : Type) (pf2 : ℚ → ℚ → Bool) (sh2 : ℚ → ℚ → Option η2)
        (cmp2 : η2 → δ2) (angles2 : List ℚ) (data2 : FLidarRawData δ2),
      (SimulateLidar ⟨1, 0, 0, 10, 1/8, 100⟩ 1 pf2 sh2 cmp2 angles2
          data2).data.HorizontalAngleDeg =
        fmodQ (data2.HorizontalAngleDeg +
          AngleDistanceOfTick ⟨1, 0, 0, 10, 1/8, 100⟩ 1) 360) ∧
    (∀ n : ℕ,
      (sweepIter ⟨1, 0, 0, 10, 1/8, 100⟩ 1 (fun _ _ => true)
          (fun _ _ => some ()) (fun _ => (0 : ℕ)) [0] ⟨0, [], []⟩
          n).HorizontalAngleDeg =
        fmodQ (AngleDistanceOfTick ⟨1, 0, 0, 10, 1/8, 100⟩ 1 * n) 360) ∧
    (∀ n : ℕ,
      0 ≤ (sweepIter ⟨1, 0, 0, 10, 1/8, 100⟩ 1 (fun _ _ => true)
          (fun _ _ => some ()) (fun _ => (0 : ℕ)) [0] ⟨0, [], []⟩
          n).HorizontalAngleDeg ∧
      (sweepIter ⟨1, 0, 0, 10, 1/8, 100⟩ 1 (fun _ _ => true)
          (fun _ _ => some ()) (fun _ => (0 : ℕ)) [0] ⟨0, [], []⟩
          n).HorizontalAngleDeg < 360)) :=
  ⟨⟨by norm_num [PointsToScanWithOneLaser, RoundHalfFromZero],
      by norm_num, by norm_num, rfl⟩,
    c1_sweep_angle ⟨1, 0, 0, 10, 1/8, 100⟩ 1 (fun _ _ => true)
      (fun _ _ => some ()) (fun _ => (0 : ℕ)) [0] ⟨0, [], []⟩
      (by norm_num [PointsToScanWithOneLaser, RoundHalfFromZero])
      (by norm_num) (by norm_num) rfl⟩

/-- Claim C2: the per-channel ray budget is
`round_half_away_from_zero(PointsPerSecond * dt / Channels)`, and a step
whose budget rounds to zero is a recoverable no-op: nothing is cast, the
warning is reported, and the whole raw-data state (sweep angle included)
is left exactly unchanged. -/
theorem c2_underfilled_step {η δ : Type} (d : FLidarDescription) (dt : ℚ)
    (pf : ℚ → ℚ → Bool) (sh : ℚ → ℚ → Option η) (cmp : η → δ)
    (angles : List ℚ) (data : FLidarRawData δ)
    (hp : 0 ≤ d.PointsPerSecond) (ht : 0 ≤ dt) :
    ((PointsToScanWithOneLaser d dt : ℤ) =
      RoundHalfFromZero (d.PointsPerSecond * dt / (d.Channels : ℚ))) ∧
    (PointsToScanWithOneLaser d dt = 0 →
      SimulateLidar d dt pf sh cmp angles data =
        { data := data, RecordedHits := [], warned := true }) := by
  constructor
  · have hq : 0 ≤ d.PointsPerSecond * dt / (d.Channels : ℚ) :=
      div_nonneg (mul_nonneg hp ht) (Nat.cast_nonneg _)
    have hr : 0 ≤ RoundHalfFromZero (d.PointsPerSecond * dt / (d.Channels : ℚ)) := by
      unfold RoundHalfFromZero
      rw [if_pos hq]
      exact Int.floor_nonneg.mpr (by linarith)
    unfold PointsToScanWithOneLaser
    exact Int.toNat_of_nonneg hr
  · intro h0
    simp [SimulateLidar, h0]

/-- Witness for C2: one channel at one point per second with
`dt = 1/4` rounds to a zero budget and the step is a no-op. -/
theorem c2_underfilled_step_witness :
    ((0 : ℚ) ≤ (FLidarDescription.mk 1 0 0 1 0 100).PointsPerSecond ∧
      (0 : ℚ) ≤ (1/4 : ℚ) ∧
      PointsToScanWithOneLaser ⟨1, 0, 0, 1, 0, 100⟩ (1/4) = 0) ∧
    (((PointsToScanWithOneLaser ⟨1, 0, 0, 1, 0, 100⟩ (1/4) : ℤ) =
      RoundHalfFromZero ((FLidarDescription.mk 1 0 0 1 0 100).PointsPerSecond *
        (1/4) / ((FLidarDescription.mk 1 0 0 1 0 100).Channels : ℚ))) ∧
    (PointsToScanWithOneLaser ⟨1, 0, 0, 1, 0, 100⟩ (1/4) = 0 →
      SimulateLidar ⟨1, 0, 0, 1, 0, 100⟩ (1/4) (fun _ _ => true)
          (fun _ _ => some ()) (fun _ => (7 : ℕ)) [0] ⟨0, [], []⟩ =
        { data := ⟨0, [], []⟩, RecordedHits := [], warned := true })) :=
  ⟨⟨by norm_num, by norm_num,
      by norm_num [PointsToScanWithOneLaser, RoundHalfFromZero]⟩,
    c2_underfilled_step ⟨1, 0, 0, 1, 0, 100⟩ (1/4) (fun _ _ => true)
      (fun _ _ => some ()) (fun _ => (7 : ℕ)) [0] ⟨0, [], []⟩
      (by norm_num) (by norm_num)⟩

/-! ## Beam array theorems -/

lemma getD_map_range (f : ℕ → ℚ) {n i : ℕ} (h : i < n) :
    ((List.range n).map f).getD i 0 = f i := by
  rw [List.getD_eq_getElem?_getD]
  simp [List.getElem?_range h]

/-- Claim C3: the rebuilt beam array has one angle per channel; with one
channel the single angle is exactly `UpperFovLimit` (the ternary avoids
the division); with more channels the angles follow
`upper - i * (upper - lower) / (channels - 1)`, are evenly spaced, start
at `upper`, end at `lower`, and are strictly decreasing when
`upper > lower`. -/
theorem c3_beam_angles (n : ℕ) (u l : ℚ) (angles : List ℚ)
    (h : CreateLasers n u l = some angles) :
    angles.length = n ∧
    (n = 1 → angles = [u]) ∧
    (1 < n → ∀ i, i < n →
      angles.getD i 0 = u - (i : ℚ) * ((u - l) / (((n - 1 : ℕ)) : ℚ))) ∧
    (1 < n → angles.getD 0 0 = u ∧ angles.getD (n - 1) 0 = l) ∧
    (1 < n → ∀ i, i + 1 < n →
      angles.getD (i + 1) 0 - angles.getD i 0 =
        -((u - l) / (((n - 1 : ℕ)) : ℚ))) ∧
    (1 < n → l < u → ∀ i j, i < j → j < n →
      angles.getD j 0 < angles.getD i 0) := by
  by_cases hn0 : n = 0
  · simp [CreateLasers, hn0] at h
  unfold CreateLasers at h
  rw [if_neg hn0] at h
  have hang := Option.some.inj h
  subst hang
  have hform : ∀ i, i < n → 1 < n →
      ((List.range n).map (fun (i : ℕ) =>
        u - (i : ℚ) * (if n = 1 then 0
          else (u - l) / (((n - 1 : ℕ)) : ℚ)))).getD i 0 =
        u - (i : ℚ) * ((u - l) / (((n - 1 : ℕ)) : ℚ)) := by
    intro i hi hn1
    rw [getD_map_range _ hi, if_neg (by omega)]
  have hcast : 1 < n → (((n - 1 : ℕ)) : ℚ) ≠ 0 := fun hn1 =>
    Nat.cast_ne_zero.mpr (by omega)
  refine ⟨by simp, ?_, ?_, ?_, ?_, ?_⟩
  · intro h1
    subst h1
    simp
  · intro hn1 i hi
    exact hform i hi hn1
  · intro hn1
    constructor
    · rw [hform 0 (by omega) hn1]
      simp
    · rw [hform (n - 1) (by omega) hn1, mul_comm,
        div_mul_cancel₀ _ (hcast hn1)]
      ring
  · intro hn1 i hi
    rw [hform (i + 1) hi hn1, hform i (by omega) hn1]
    push_cast
    ring
  · intro hn1 hlu i j hij hj
    rw [hform j hj hn1, hform i (by omega) hn1]
    have hd : 0 < (u - l) / (((n - 1 : ℕ)) : ℚ) := by
      apply div_pos (by linarith)
      have : (0 : ℚ) < ((n - 1 : ℕ) : ℚ) := by
        exact_mod_cast (by omega : 0 < n - 1)
      exact this
    have hij' : (i : ℚ) < (j : ℚ) := by exact_mod_cast hij
    nlinarith

/-- Witness for C3 at three channels spanning `[10, -10]`. -/
theorem c3_beam_angles_witness :
    CreateLasers 3 10 (-10) = some [10, 0, -10] ∧
    (([10, 0, -10] : List ℚ).length = 3 ∧
    (3 = 1 → ([10, 0, -10] : List ℚ) = [10]) ∧
    (1 < 3 → ∀ i, i < 3 →
      ([10, 0, -10] : List ℚ).getD i 0 =
        10 - (i : ℚ) * ((10 - -10) / (((3 - 1 : ℕ)) : ℚ))) ∧
    (1 < 3 → ([10, 0, -10] : List ℚ).getD 0 0 = 10 ∧
      ([10, 0, -10] : List ℚ).getD (3 - 1) 0 = -10) ∧
    (1 < 3 → ∀ i, i + 1 < 3 →
      ([10, 0, -10] : List ℚ).getD (i + 1) 0 -
        ([10, 0, -10] : List ℚ).getD i 0 =
          -((10 - -10) / (((3 - 1 : ℕ)) : ℚ))) ∧
    (1 < 3 → (-10 : ℚ) < 10 → ∀ i j, i < j → j < 3 →
      ([10, 0, -10] : List ℚ).getD j 0 < ([10, 0, -10] : List ℚ).getD i 0)) :=
  have hc : CreateLasers 3 10 (-10) = some [10, 0, -10] := by
    norm_num [CreateLasers, show List.range 3 = [0, 1, 2] from rfl]
  ⟨hc, c3_beam_angles 3 10 (-10) [10, 0, -10] hc⟩

/-- Claim C8: configuring with zero channels fails the configure call
(the `check` assertion reports the configuration error) instead of
building an empty beam array; any nonzero channel count builds an array
of exactly that many beams. -/
theorem c8_zero_channels (u l : ℚ) :
    CreateLasers 0 u l = none ∧
    (∀ d : FLidarDescription, d.Channels = 0 → SetDescription d = none) ∧
    (∀ n : ℕ, n ≠ 0 →
      ∃ angles, CreateLasers n u l = some angles ∧ angles.length = n) := by
  refine ⟨by simp [CreateLasers], ?_, ?_⟩
  · intro d hd
    simp [SetDescription, CreateLasers, hd]
  · intro n hn
    refine ⟨(List.range n).map (fun (i : ℕ) =>
      u - (i : ℚ) * (if n = 1 then 0
        else (u - l) / (((n - 1 : ℕ)) : ℚ))), ?_, by simp⟩
    unfold CreateLasers
    rw [if_neg hn]

/-- Witness for C8: a zero-channel description fails, two channels give
two beams. -/
theorem c8_zero_channels_witness :
    CreateLasers 0 1 0 = none ∧
    SetDescription ⟨0, 1, 0, 100, 1, 50⟩ = none ∧
    ((2 : ℕ) ≠ 0 ∧
      ∃ angles, CreateLasers 2 1 0 = some angles ∧ angles.length = 2) :=
  ⟨(c8_zero_channels 1 0).1,
    (c8_zero_channels 1 0).2.1 ⟨0, 1, 0, 100, 1, 50⟩ rfl,
    by norm_num, (c8_zero_channels 1 0).2.2 2 (by norm_num)⟩

/-! ## Point-buffer supersession (C6) and per-ray angles (C7) -/

lemma foldl_WritePointSync_serPoints {η δ : Type} (f : η → δ) (ch : List η) :
    ∀ b : FLidarRawData δ,
      (ch.foldl (fun b2 h => WritePointSync b2 (f h)) b).serPoints =
        b.serPoints ++ ch.map f := by
  induction ch with
  | nil => intro b; simp
  | cons a t ih =>
    intro b
    rw [List.foldl_cons, ih]
    simp [WritePointSync]

lemma foldl_WritePointSync_angle {η δ : Type} (f : η → δ) (ch : List η) :
    ∀ b : FLidarRawData δ,
      (ch.foldl (fun b2 h => WritePointSync b2 (f h)) b).HorizontalAngleDeg =
        b.HorizontalAngleDeg := by
  induction ch with
  | nil => intro b; simp
  | cons a t ih =>
    intro b
    rw [List.foldl_cons, ih]
    rfl

lemma foldl_WritePointSync_serCounts {η δ : Type} (f : η → δ) (ch : List η) :
    ∀ b : FLidarRawData δ,
      (ch.foldl (fun b2 h => WritePointSync b2 (f h)) b).serCounts =
        b.serCounts := by
  induction ch with
  | nil => intro b; simp
  | cons a t ih =>
    intro b
    rw [List.foldl_cons, ih]
    rfl

lemma foldl_channels_serPoints {η δ : Type} (f : η → δ) (chs : List (List η)) :
    ∀ b : FLidarRawData δ,
      ((chs.foldl
        (fun b ch => ch.foldl (fun b2 h => WritePointSync b2 (f h)) b)
        b)).serPoints = b.serPoints ++ (chs.map (List.map f)).flatten := by
  induction chs with
  | nil => intro b; simp
  | cons ch t ih =>
    intro b
    simp only [List.foldl_cons]
    rw [ih, foldl_WritePointSync_serPoints]
    simp [List.append_assoc]

lemma foldl_channels_serCounts {η δ : Type} (f : η → δ) (chs : List (List η)) :
    ∀ b : FLidarRawData δ,
      ((chs.foldl
        (fun b ch => ch.foldl (fun b2 h => WritePointSync b2 (f h)) b)
        b)).serCounts = b.serCounts := by
  induction chs with
  | nil => intro b; simp
  | cons ch t ih =>
    intro b
    simp only [List.foldl_cons]
    rw [ih, foldl_WritePointSync_serCounts]

lemma ComputeAndSaveDetections_serPoints {η δ : Type} (f : η → δ)
    (hits : List (List η)) (data : FLidarRawData δ) :
    (ComputeAndSaveDetections f hits data).serPoints =
      (hits.map (List.map f)).flatten := by
  unfold ComputeAndSaveDetections
  rw [foldl_channels_serPoints]
  simp [ResetSerPoints]

lemma ComputeAndSaveDetections_serCounts {η δ : Type} (f : η → δ)
    (hits : List (List η)) (data : FLidarRawData δ) :
    (ComputeAndSaveDetections f hits data).serCounts =
      hits.map List.length := by
  unfold ComputeAndSaveDetections
  rw [foldl_channels_serCounts]
  simp [ResetSerPoints]

/-- Amended C6: a step whose budget is nonzero fully supersedes the
previous buffer content (the emitted points and counts are exactly this
step`s detections, with no dependence on the previous content), but an
underfilled step skips `ResetSerPoints` entirely and `Tick` hands the
PREVIOUS step`s buffer, unchanged, to the emission path — not an empty
buffer. -/
theorem c6_amended_supersede {η δ : Type} (d : FLidarDescription) (dt : ℚ)
    (pf : ℚ → ℚ → Bool) (sh : ℚ → ℚ → Option η) (cmp : η → δ)
    (angles : List ℚ) (data : FLidarRawData δ) :
    (PointsToScanWithOneLaser d dt ≠ 0 →
      (Tick d dt pf sh cmp angles data).2.serPoints =
        ((SimulateLidar d dt pf sh cmp angles data).RecordedHits.map
          (List.map cmp)).flatten ∧
      (Tick d dt pf sh cmp angles data).2.serCounts =
        (SimulateLidar d dt pf sh cmp angles data).RecordedHits.map
          List.length) ∧
    (PointsToScanWithOneLaser d dt = 0 →
      (Tick d dt pf sh cmp angles data).2 = data) := by
  constructor
  · intro h
    unfold Tick
    constructor
    · simp only [SimulateLidar, h, if_neg h, if_false]
      simp [ComputeAndSaveDetections_serPoints]
    · simp only [SimulateLidar, h, if_neg h, if_false]
      simp [ComputeAndSaveDetections_serCounts]
  · intro h
    simp [Tick, SimulateLidar, h]

/-- Witness for the amended C6: a normal step stores exactly its own
detection; an underfilled step leaves the buffer untouched. -/
theorem c6_amended_supersede_witness :
    (PointsToScanWithOneLaser ⟨1, 0, 0, 1, 0, 100⟩ 1 ≠ 0 ∧
      PointsToScanWithOneLaser ⟨1, 0, 0, 1, 0, 100⟩ (1/4) = 0) ∧
    ((Tick ⟨1, 0, 0, 1, 0, 100⟩ 1 (fun _ _ => true) (fun _ _ => some ())
        (fun _ => (7 : ℕ)) [0] ⟨0, [], []⟩).2.serPoints =
      ((SimulateLidar ⟨1, 0, 0, 1, 0, 100⟩ 1 (fun _ _ => true)
        (fun _ _ => some ()) (fun _ => (7 : ℕ)) [0]
        ⟨0, [], []⟩).RecordedHits.map (List.map (fun _ => (7 : ℕ)))).flatten) ∧
    ((Tick ⟨1, 0, 0, 1, 0, 100⟩ (1/4) (fun _ _ => true) (fun _ _ => some ())
        (fun _ => (7 : ℕ)) [0] ⟨0, [5], [9]⟩).2 = ⟨0, [5], [9]⟩) := by
  have h1 : PointsToScanWithOneLaser ⟨1, 0, 0, 1, 0, 100⟩ 1 ≠ 0 := by
    norm_num [PointsToScanWithOneLaser, RoundHalfFromZero]
  have h0 : PointsToScanWithOneLaser ⟨1, 0, 0, 1, 0, 100⟩ (1/4) = 0 := by
    norm_num [PointsToScanWithOneLaser, RoundHalfFromZero]
  exact ⟨⟨h1, h0⟩,
    (c6_amended_supersede ⟨1, 0, 0, 1, 0, 100⟩ 1 (fun _ _ => true)
      (fun _ _ => some ()) (fun _ => (7 : ℕ)) [0] ⟨0, [], []⟩).1 h1 |>.1,
    (c6_amended_supersede ⟨1, 0, 0, 1, 0, 100⟩ (1/4) (fun _ _ => true)
      (fun _ _ => some ()) (fun _ => (7 : ℕ)) [0] ⟨0, [5], [9]⟩).2 h0⟩

/-- Counterexample to C6 as stated: run a normal step (dt = 1, which
records one detection, value 7), then an underfilled step (dt = 1/4,
budget rounds to zero).  The buffer `Tick` hands to emission after the
underfilled step still contains the previous step`s detection — it is
neither empty nor free of carryover. -/
theorem c6_counterexample :
    (Tick ⟨1, 0, 0, 1, 0, 100⟩ (1/4) (fun _ _ => true) (fun _ _ => some ())
        (fun _ => (7 : ℕ)) [0]
        (SimulateLidar ⟨1, 0, 0, 1, 0, 100⟩ 1 (fun _ _ => true)
          (fun _ _ => some ()) (fun _ => (7 : ℕ)) [0]
          ⟨0, [], []⟩).data).2.serPoints = [7] ∧
    (Tick ⟨1, 0, 0, 1, 0, 100⟩ (1/4) (fun _ _ => true) (fun _ _ => some ())
        (fun _ => (7 : ℕ)) [0]
        (SimulateLidar ⟨1, 0, 0, 1, 0, 100⟩ 1 (fun _ _ => true)
          (fun _ _ => some ()) (fun _ => (7 : ℕ)) [0]
          ⟨0, [], []⟩).data).1.warned = true ∧
    ([7] : List ℕ) ≠ [] := by
  have h1 : PointsToScanWithOneLaser ⟨1, 0, 0, 1, 0, 100⟩ 1 = 1 := by
    norm_num [PointsToScanWithOneLaser, RoundHalfFromZero]
  have h0 : PointsToScanWithOneLaser ⟨1, 0, 0, 1, 0, 100⟩ (1/4) = 0 := by
    norm_num [PointsToScanWithOneLaser, RoundHalfFromZero]
  have hstep1 : (SimulateLidar ⟨1, 0, 0, 1, 0, 100⟩ 1 (fun _ _ => true)
      (fun _ _ => some ()) (fun _ => (7 : ℕ)) [0]
      ⟨0, [], []⟩).data.serPoints = [7] := by
    simp only [SimulateLidar, h1]
    norm_num [ComputeAndSaveDetections_serPoints, channelHits, rayOutcome,
      List.range_succ]
    rfl
  have hnoop : SimulateLidar ⟨1, 0, 0, 1, 0, 100⟩ (1/4) (fun _ _ => true)
      (fun _ _ => some ()) (fun _ => (7 : ℕ)) [0]
      (SimulateLidar ⟨1, 0, 0, 1, 0, 100⟩ 1 (fun _ _ => true)
        (fun _ _ => some ()) (fun _ => (7 : ℕ)) [0] ⟨0, [], []⟩).data =
      { data := (SimulateLidar ⟨1, 0, 0, 1, 0, 100⟩ 1 (fun _ _ => true)
          (fun _ _ => some ()) (fun _ => (7 : ℕ)) [0] ⟨0, [], []⟩).data,
        RecordedHits := [], warned := true } := by
    rw [SimulateLidar.eq_def]
    simp only [h0]
    simp
  refine ⟨?_, ?_, by simp⟩
  · show (SimulateLidar ⟨1, 0, 0, 1, 0, 100⟩ (1/4) (fun _ _ => true)
      (fun _ _ => some ()) (fun _ => (7 : ℕ)) [0]
      (SimulateLidar ⟨1, 0, 0, 1, 0, 100⟩ 1 (fun _ _ => true)
        (fun _ _ => some ()) (fun _ => (7 : ℕ)) [0]
        ⟨0, [], []⟩).data).data.serPoints = [7]
    rw [hnoop]
    exact hstep1
  · show (SimulateLidar ⟨1, 0, 0, 1, 0, 100⟩ (1/4) (fun _ _ => true)
      (fun _ _ => some ()) (fun _ => (7 : ℕ)) [0]
      (SimulateLidar ⟨1, 0, 0, 1, 0, 100⟩ 1 (fun _ _ => true)
        (fun _ _ => some ()) (fun _ => (7 : ℕ)) [0]
        ⟨0, [], []⟩).data).warned = true
    rw [hnoop]

/-- Claim C7: within a step, ray `(c, p)` uses vertical angle
`LaserAngles[c]` and horizontal angle `start + stride * p` with
`stride = AngleDistanceOfTick / points`; a pre-filter veto yields no
intersection query and nothing recorded for that (channel, index) pair
(the vetoed index drops out of the channel`s list before the
intersection primitive is consulted). -/
theorem c7_ray_schedule {η δ : Type} (d : FLidarDescription) (dt : ℚ)
    (pf : ℚ → ℚ → Bool) (sh : ℚ → ℚ → Option η) (cmp : η → δ)
    (angles : List ℚ) (data : FLidarRawData δ)
    (h : PointsToScanWithOneLaser d dt ≠ 0) :
    (AngleDistanceOfLaserMeasure d dt =
      AngleDistanceOfTick d dt / (PointsToScanWithOneLaser d dt : ℚ)) ∧
    ((SimulateLidar d dt pf sh cmp angles data).RecordedHits =
      (List.range d.Channels).map (fun (c : ℕ) =>
        channelHits pf sh (angles.getD c 0) data.HorizontalAngleDeg
          (AngleDistanceOfLaserMeasure d dt)
          (PointsToScanWithOneLaser d dt))) ∧
    (∀ v hz : ℚ, pf v hz = false → rayOutcome pf sh v hz = none) ∧
    (∀ (v start stride : ℚ) (count : ℕ),
      channelHits pf sh v start stride count =
        ((List.range count).filter
          (fun (p : ℕ) => pf v (start + stride * (p : ℚ)))).filterMap
          (fun (p : ℕ) => sh v (start + stride * (p : ℚ)))) := by
  refine ⟨rfl, ?_, ?_, ?_⟩
  · simp [SimulateLidar, h]
  · intro v hz hveto
    simp [rayOutcome, hveto]
  · intro v start stride count
    unfold channelHits rayOutcome
    induction List.range count with
    | nil => simp
    | cons a t ih =>
      by_cases hp : pf v (start + stride * (a : ℚ))
      · simp [List.filterMap_cons, List.filter_cons, hp, ih]
      · simp [List.filterMap_cons, List.filter_cons, hp, ih]

/-- Witness for C7 at a one-channel, two-ray configuration whose
pre-filter vetoes the second ray. -/
theorem c7_ray_schedule_witness :
    PointsToScanWithOneLaser ⟨1, 0, 0, 2, 0, 100⟩ 1 ≠ 0 ∧
    ((AngleDistanceOfLaserMeasure ⟨1, 0, 0, 2, 0, 100⟩ 1 =
      AngleDistanceOfTick ⟨1, 0, 0, 2, 0, 100⟩ 1 /
        (PointsToScanWithOneLaser ⟨1, 0, 0, 2, 0, 100⟩ 1 : ℚ)) ∧
    ((SimulateLidar ⟨1, 0, 0, 2, 0, 100⟩ 1 (fun _ hz => hz == 0)
        (fun _ _ => some ()) (fun _ => (7 : ℕ)) [0]
        ⟨0, [], []⟩).RecordedHits =
      (List.range (FLidarDescription.mk 1 0 0 2 0 100).Channels).map
        (fun (c : ℕ) =>
          channelHits (fun _ hz => hz == 0) (fun _ _ => some ())
            (([0] : List ℚ).getD c 0)
            (FLidarRawData.mk 0 [] [] : FLidarRawData ℕ).HorizontalAngleDeg
            (AngleDistanceOfLaserMeasure ⟨1, 0, 0, 2, 0, 100⟩ 1)
            (PointsToScanWithOneLaser ⟨1, 0, 0, 2, 0, 100⟩ 1))) ∧
    (∀ v hz : ℚ, (fun _ hz => hz == (0 : ℚ)) v hz = false →
      rayOutcome (fun _ hz => hz == (0 : ℚ))
        (fun _ _ => some ()) v hz = none) ∧
    (∀ (v start stride : ℚ) (count : ℕ),
      channelHits (fun _ hz => hz == (0 : ℚ)) (fun _ _ => some ())
          v start stride count =
        ((List.range count).filter
          (fun (p : ℕ) => (fun _ hz => hz == (0 : ℚ)) v
            (start + stride * (p : ℚ)))).filterMap
          (fun (p : ℕ) => (fun _ _ => some (() : Unit)) v
            (start + stride * (p : ℚ))))) :=
  have h : PointsToScanWithOneLaser ⟨1, 0, 0, 2, 0, 100⟩ 1 ≠ 0 := by
    norm_num [PointsToScanWithOneLaser, RoundHalfFromZero]
  ⟨h, c7_ray_schedule ⟨1, 0, 0, 2, 0, 100⟩ 1 (fun _ hz => hz == 0)
    (fun _ _ => some ()) (fun _ => (7 : ℕ)) [0] ⟨0, [], []⟩ h⟩

/-! ## Parallel casting phase: no lost writes under any schedule -/

lemma runSchedule_length {η : Type} (hitAt : ℕ → ℕ → Option η) :
    ∀ (sched : List (ℕ × ℕ)) (st : ℕ → List η) (c : ℕ),
      (runSchedule hitAt st sched c).length =
        (st c).length +
          sched.countP (fun t => decide (t.1 = c) && (hitAt t.1 t.2).isSome) := by
  intro sched
  induction sched with
  | nil => intro st c; simp [runSchedule]
  | cons t ts ih =>
    intro st c
    have hrun : runSchedule hitAt st (t :: ts) =
        runSchedule hitAt (execTask hitAt st t) ts := rfl
    rw [hrun, ih, List.countP_cons]
    rcases hres : hitAt t.1 t.2 with _ | h
    · simp [execTask, hres]
    · by_cases hcc : t.1 = c
      · subst hcc
        simp only [execTask, hres, Function.update_apply]
        simp
        omega
      · simp [execTask, hres, Function.update_apply, hcc, Ne.symm hcc]

lemma mem_allTasks_fst_lt {C P : ℕ} {t : ℕ × ℕ} (h : t ∈ allTasks C P) :
    t.1 < C := by
  simp only [allTasks, List.mem_flatMap, List.mem_map, List.mem_range] at h
  obtain ⟨c, hc, p, _, rfl⟩ := h
  exact hc

lemma countP_allTasks (P : ℕ) :
    ∀ (C c : ℕ), c < C →
      (allTasks C P).countP (fun t => decide (t.1 = c)) = P := by
  intro C
  induction C with
  | zero => omega
  | succ C ih =>
    intro c hc
    have hsplit : allTasks (C + 1) P =
        allTasks C P ++ (List.range P).map (fun p => (C, p)) := by
      unfold allTasks
      rw [List.range_succ, List.flatMap_append]
      simp
    rw [hsplit, List.countP_append, List.countP_map]
    by_cases hcC : c < C
    · rw [ih c hcC]
      have : ∀ p ∈ List.range P,
          ¬(((fun t : ℕ × ℕ => decide (t.1 = c)) ∘ fun p => (C, p)) p = true) := by
        intro p _
        simp only [Function.comp]
        simp
        omega
      rw [List.countP_eq_zero.mpr this]
      omega
    · have hceq : c = C := by omega
      subst hceq
      have hz : (allTasks c P).countP (fun t => decide (t.1 = c)) = 0 := by
        apply List.countP_eq_zero.mpr
        intro t ht
        have hlt := mem_allTasks_fst_lt ht
        simp
        omega
      rw [hz]
      have : ∀ p ∈ List.range P,
          ((fun t : ℕ × ℕ => decide (t.1 = c)) ∘ fun p => (c, p)) p = true := by
        intro p _
        simp [Function.comp]
      rw [List.countP_eq_length.mpr this]
      simp

/-- Claim C9: the casting phase loses no writes.  The per-channel
`FCriticalSection` is declared once per outer (channel) task and shared
by reference across all of that channel`s inner (ray-index) tasks, so
each append is atomic and appends of one channel serialize, while
distinct channels touch disjoint state with no shared lock.  Every
concurrent execution is therefore equivalent to some sequential order of
the `Channels × points` tasks; quantifying over ALL such orders
(including arbitrary cross-channel interleavings, so no global order is
imposed), an always-hitting intersection primitive with no pre-filter
veto yields exactly `points` recorded hits in every channel. -/
theorem c9_no_lost_writes {η : Type} (hitAt : ℕ → ℕ → Option η)
    (Channels points : ℕ) (sched : List (ℕ × ℕ))
    (hperm : sched.Perm (allTasks Channels points))
    (hhit : ∀ c p, (hitAt c p).isSome) :
    ∀ c, c < Channels →
      (runSchedule hitAt (fun _ => []) sched c).length = points := by
  intro c hc
  rw [runSchedule_length]
  simp only [List.length_nil, Nat.zero_add]
  rw [hperm.countP_eq]
  have hcong : ∀ t ∈ allTasks Channels points,
      ((decide (t.1 = c) && (hitAt t.1 t.2).isSome) = true ↔
        decide (t.1 = c) = true) := by
    intro t _
    rw [hhit t.1 t.2, Bool.and_true]
  rw [List.countP_congr hcong]
  exact countP_allTasks points Channels c hc

/-- Witness for C9: two channels, two rays each, an interleaved schedule
and an always-hitting primitive; both channels end with exactly two
recorded hits. -/
theorem c9_no_lost_writes_witness :
    (([((1 : ℕ), (0 : ℕ)), (0, 0), (1, 1), (0, 1)]).Perm (allTasks 2 2) ∧
      (∀ c p : ℕ, ((fun _ _ => some ()) c p : Option Unit).isSome)) ∧
    (∀ c, c < 2 →
      (runSchedule (fun _ _ => some (() : Unit)) (fun _ => [])
        [(1, 0), (0, 0), (1, 1), (0, 1)] c).length = 2) :=
  ⟨⟨by decide, fun _ _ => rfl⟩,
    c9_no_lost_writes (fun _ _ => some ()) 2 2 [(1, 0), (0, 0), (1, 1), (0, 1)]
      (by decide) (fun _ _ => rfl)⟩

/-! ## Geometry lemmas for the detection processor -/

lemma dot3_self_nonneg (v : Vec3) : 0 ≤ dot3 v v := by
  unfold dot3
  nlinarith [mul_self_nonneg v.x, mul_self_nonneg v.y, mul_self_nonneg v.z]

lemma dot3_self_eq_zero {v : Vec3} : dot3 v v = 0 ↔ v = ⟨0, 0, 0⟩ := by
  constructor
  · intro h
    obtain ⟨vx, vy, vz⟩ := v
    simp only [dot3] at h
    have hx : vx * vx = 0 := by
      nlinarith [mul_self_nonneg vx, mul_self_nonneg vy, mul_self_nonneg vz]
    have hy : vy * vy = 0 := by
      nlinarith [mul_self_nonneg vx, mul_self_nonneg vy, mul_self_nonneg vz]
    have hz : vz * vz = 0 := by
      nlinarith [mul_self_nonneg vx, mul_self_nonneg vy, mul_self_nonneg vz]
    simp [mul_self_eq_zero.mp hx, mul_self_eq_zero.mp hy,
      mul_self_eq_zero.mp hz]
  · intro h
    subst h
    simp [dot3]

lemma neg3_sub (a b : Vec3) : neg3 (sub3 a b) = sub3 b a := by
  simp [neg3, sub3, neg_sub]

lemma dot3_neg3_left (a b : Vec3) : dot3 (neg3 a) b = -(dot3 a b) := by
  simp [dot3, neg3]
  ring

lemma dot3_neg3_right (a b : Vec3) : dot3 a (neg3 b) = -(dot3 a b) := by
  simp [dot3, neg3]
  ring

lemma dot3_neg3_neg3 (v : Vec3) : dot3 (neg3 v) (neg3 v) = dot3 v v := by
  simp [dot3, neg3]

lemma smul3_neg3 (c : ℝ) (v : Vec3) :
    smul3 c (neg3 v) = neg3 (smul3 c v) := by
  simp [smul3, neg3]

lemma size3_neg3 (v : Vec3) : size3 (neg3 v) = size3 v := by
  unfold size3
  rw [dot3_neg3_neg3]

lemma GetSafeNormal_neg3 (v : Vec3) :
    GetSafeNormal (neg3 v) = neg3 (GetSafeNormal v) := by
  unfold GetSafeNormal
  rw [dot3_neg3_neg3]
  by_cases h : dot3 v v = 0
  · simp [h, neg3]
  · rw [if_neg h, if_neg h, size3_neg3, smul3_neg3]

lemma dot3_GetSafeNormal_self {v : Vec3} (h : dot3 v v ≠ 0) :
    dot3 (GetSafeNormal v) (GetSafeNormal v) = 1 := by
  unfold GetSafeNormal
  rw [if_neg h]
  have hexp : dot3 (smul3 (size3 v)⁻¹ v) (smul3 (size3 v)⁻¹ v) =
      (size3 v)⁻¹ * (size3 v)⁻¹ * dot3 v v := by
    simp [dot3, smul3]
    ring
  have hs : Real.sqrt (dot3 v v) * Real.sqrt (dot3 v v) = dot3 v v :=
    Real.mul_self_sqrt (dot3_self_nonneg v)
  have hsne : Real.sqrt (dot3 v v) ≠ 0 := by
    intro h0
    rw [h0, mul_zero] at hs
    exact h hs.symm
  rw [hexp]
  unfold size3
  field_simp
  exact hs.symm

lemma cauchy_schwarz3 (a b : Vec3) :
    dot3 a b * dot3 a b ≤ dot3 a a * dot3 b b := by
  obtain ⟨a1, a2, a3⟩ := a
  obtain ⟨b1, b2, b3⟩ := b
  simp only [dot3]
  nlinarith [sq_nonneg (a1 * b2 - a2 * b1), sq_nonneg (a1 * b3 - a3 * b1),
    sq_nonneg (a2 * b3 - a3 * b2)]

/-- Claim C4: every computed detection has
`point = Inverse(sensor pose) applied to the impact point`;
`cos_inc_angle` equals the dot product of the safe-normalised direction
from the hit back toward the sensor with the impact normal (the source
negates the normalisation of the opposite difference, which is the same
vector); for a unit impact normal the value lies in `[-1, 1]`; and when
the impact normal is parallel to the incidence direction the value is
exactly `1` (head-on) or `-1` (directly behind). -/
theorem c4_detection_geometry {H : Type} (Find : H → FActorView)
    (hit : FHitResult H) (T : FTransform) (det : FRawDetection)
    (hdet : ComputeRawDetection Find hit T = some det) :
    det.point = InverseTransformPosition T hit.ImpactPoint ∧
    det.cos_inc_angle =
      dot3 (GetSafeNormal (sub3 T.loc hit.ImpactPoint)) hit.ImpactNormal ∧
    (dot3 hit.ImpactNormal hit.ImpactNormal = 1 →
      -1 ≤ det.cos_inc_angle ∧ det.cos_inc_angle ≤ 1) ∧
    (sub3 T.loc hit.ImpactPoint ≠ ⟨0, 0, 0⟩ →
      hit.ImpactNormal = GetSafeNormal (sub3 T.loc hit.ImpactPoint) →
      det.cos_inc_angle = 1) ∧
    (sub3 T.loc hit.ImpactPoint ≠ ⟨0, 0, 0⟩ →
      hit.ImpactNormal = neg3 (GetSafeNormal (sub3 T.loc hit.ImpactPoint)) →
      det.cos_inc_angle = -1) := by
  have hflip : neg3 (GetSafeNormal (sub3 hit.ImpactPoint T.loc)) =
      GetSafeNormal (sub3 T.loc hit.ImpactPoint) := by
    rw [← neg3_sub hit.ImpactPoint T.loc, GetSafeNormal_neg3]
  rcases hres : ResolveSemantics Find hit.Actor with _ | pr
  · rw [ComputeRawDetection, hres] at hdet
    simp at hdet
  · rw [ComputeRawDetection, hres] at hdet
    simp only [Option.map_some'] at hdet
    have hdet' := Option.some.inj hdet
    subst hdet'
    refine ⟨rfl, ?_, ?_, ?_, ?_⟩
    · show dot3 (neg3 (GetSafeNormal (sub3 hit.ImpactPoint T.loc)))
        hit.ImpactNormal = _
      rw [hflip]
    · intro hn
      show -1 ≤ dot3 (neg3 (GetSafeNormal (sub3 hit.ImpactPoint T.loc)))
          hit.ImpactNormal ∧
        dot3 (neg3 (GetSafeNormal (sub3 hit.ImpactPoint T.loc)))
          hit.ImpactNormal ≤ 1
      rw [hflip]
      by_cases hw : dot3 (sub3 T.loc hit.ImpactPoint)
          (sub3 T.loc hit.ImpactPoint) = 0
      · unfold GetSafeNormal
        rw [if_pos hw]
        simp [dot3]
      · have huu := dot3_GetSafeNormal_self hw
        have hcs := cauchy_schwarz3
          (GetSafeNormal (sub3 T.loc hit.ImpactPoint)) hit.ImpactNormal
        rw [huu, hn] at hcs
        constructor <;> nlinarith
    · intro hne hpar
      show dot3 (neg3 (GetSafeNormal (sub3 hit.ImpactPoint T.loc)))
        hit.ImpactNormal = 1
      rw [hflip, hpar]
      exact dot3_GetSafeNormal_self (fun h0 => hne (dot3_self_eq_zero.mp h0))
    · intro hne hpar
      show dot3 (neg3 (GetSafeNormal (sub3 hit.ImpactPoint T.loc)))
        hit.ImpactNormal = -1
      rw [hflip, hpar, dot3_neg3_right,
        dot3_GetSafeNormal_self (fun h0 => hne (dot3_self_eq_zero.mp h0))]

/-- Witness for C4: identity pose at the origin, hit point `(2,0,0)`,
unit normal `(-1,0,0)` facing the sensor head-on; the incidence cosine
is exactly `1` and within bounds. -/
theorem c4_detection_geometry_witness :
    ComputeRawDetection (fun _ : Unit => FActorView.mk false none)
      (FHitResult.mk ⟨2, 0, 0⟩ ⟨-1, 0, 0⟩ none)
      (FTransform.mk ⟨1, 0, 0⟩ ⟨0, 1, 0⟩ ⟨0, 0, 1⟩ ⟨0, 0, 0⟩) =
      some (FRawDetection.mk
        (InverseTransformPosition
          (FTransform.mk ⟨1, 0, 0⟩ ⟨0, 1, 0⟩ ⟨0, 0, 1⟩ ⟨0, 0, 0⟩) ⟨2, 0, 0⟩)
        (dot3 (neg3 (GetSafeNormal (sub3 ⟨2, 0, 0⟩ ⟨0, 0, 0⟩))) ⟨-1, 0, 0⟩)
        0 CityObjectLabelNone) ∧
    dot3 (Vec3.mk (-1) 0 0) (Vec3.mk (-1) 0 0) = 1 ∧
    sub3 (Vec3.mk 0 0 0) (Vec3.mk 2 0 0) ≠ Vec3.mk 0 0 0 ∧
    Vec3.mk (-1) 0 0 = GetSafeNormal (sub3 ⟨0, 0, 0⟩ ⟨2, 0, 0⟩) ∧
    dot3 (neg3 (GetSafeNormal (sub3 ⟨2, 0, 0⟩ ⟨0, 0, 0⟩))) ⟨-1, 0, 0⟩ = 1 ∧
    (-1 ≤ dot3 (neg3 (GetSafeNormal (sub3 ⟨2, 0, 0⟩ ⟨0, 0, 0⟩))) ⟨-1, 0, 0⟩ ∧
      dot3 (neg3 (GetSafeNormal (sub3 ⟨2, 0, 0⟩ ⟨0, 0, 0⟩))) ⟨-1, 0, 0⟩ ≤ 1) := by
  have hdet : ComputeRawDetection (fun _ : Unit => FActorView.mk false none)
      (FHitResult.mk ⟨2, 0, 0⟩ ⟨-1, 0, 0⟩ none)
      (FTransform.mk ⟨1, 0, 0⟩ ⟨0, 1, 0⟩ ⟨0, 0, 1⟩ ⟨0, 0, 0⟩) =
      some (FRawDetection.mk
        (InverseTransformPosition
          (FTransform.mk ⟨1, 0, 0⟩ ⟨0, 1, 0⟩ ⟨0, 0, 1⟩ ⟨0, 0, 0⟩) ⟨2, 0, 0⟩)
        (dot3 (neg3 (GetSafeNormal (sub3 ⟨2, 0, 0⟩ ⟨0, 0, 0⟩))) ⟨-1, 0, 0⟩)
        0 CityObjectLabelNone) := rfl
  have hn : dot3 (Vec3.mk (-1) 0 0) (Vec3.mk (-1) 0 0) = 1 := by
    norm_num [dot3]
  have hne : sub3 (Vec3.mk 0 0 0) (Vec3.mk 2 0 0) ≠ Vec3.mk 0 0 0 := by
    norm_num [sub3, Vec3.mk.injEq]
  have hpar : Vec3.mk (-1) 0 0 = GetSafeNormal (sub3 ⟨0, 0, 0⟩ ⟨2, 0, 0⟩) := by
    have h4 : dot3 (sub3 (Vec3.mk 0 0 0) ⟨2, 0, 0⟩)
        (sub3 (Vec3.mk 0 0 0) ⟨2, 0, 0⟩) = 4 := by
      norm_num [dot3, sub3]
    have hsq : Real.sqrt 4 = 2 := by
      rw [show (4 : ℝ) = 2 ^ 2 by norm_num,
        Real.sqrt_sq (by norm_num : (0 : ℝ) ≤ 2)]
    unfold GetSafeNormal size3
    rw [h4, if_neg (by norm_num), hsq]
    norm_num [smul3, sub3, Vec3.mk.injEq]
  have main := c4_detection_geometry (fun _ : Unit => FActorView.mk false none)
    (FHitResult.mk ⟨2, 0, 0⟩ ⟨-1, 0, 0⟩ none)
    (FTransform.mk ⟨1, 0, 0⟩ ⟨0, 1, 0⟩ ⟨0, 0, 1⟩ ⟨0, 0, 0⟩) _ hdet
  exact ⟨hdet, hn, hne, hpar, main.2.2.2.1 hne hpar, main.2.2.1 hn⟩

/-! ## Semantic resolution (C5, C10) -/

lemma ComputeRawDetection_of_resolve {H : Type} (Find : H → FActorView)
    (hit : FHitResult H) (T : FTransform) {pr : ℕ × ℕ}
    (h : ResolveSemantics Find hit.Actor = some pr) :
    ComputeRawDetection Find hit T =
      some ⟨InverseTransformPosition T hit.ImpactPoint,
        dot3 (neg3 (GetSafeNormal (sub3 hit.ImpactPoint T.loc)))
          hit.ImpactNormal, pr.1, pr.2⟩ := by
  rw [ComputeRawDetection, h, Option.map_some']

/-- Claim C5: semantic resolution never aborts a step whose registry
honours the valid-view-has-info invariant.  An absent hit-object handle
or an invalid registry view yields `object_idx = 0`,
`object_tag = NONE`; a successful lookup yields the registry`s stable id
as `object_idx`, and `object_tag` is the single semantic label when the
object carries exactly one label, `NONE` for zero or several labels. -/
theorem c5_semantic_resolution {H : Type} (Find : H → FActorView)
    (hpre : ∀ h, (Find h).IsValid = true → ((Find h).ActorInfo).isSome = true)
    (hit : FHitResult H) (T : FTransform) :
    (∃ det, ComputeRawDetection Find hit T = some det) ∧
    (hit.Actor = none → ∃ det, ComputeRawDetection Find hit T = some det ∧
      det.object_idx = 0 ∧ det.object_tag = CityObjectLabelNone) ∧
    (∀ a, hit.Actor = some a → (Find a).IsValid = false →
      ∃ det, ComputeRawDetection Find hit T = some det ∧
        det.object_idx = 0 ∧ det.object_tag = CityObjectLabelNone) ∧
    (∀ a info, hit.Actor = some a → (Find a).IsValid = true →
      (Find a).ActorInfo = some info →
      ∃ det, ComputeRawDetection Find hit T = some det ∧
        det.object_idx = info.UId ∧
        (info.SemanticTags.length = 1 →
          det.object_tag = info.SemanticTags.headD CityObjectLabelNone) ∧
        (info.SemanticTags.length ≠ 1 →
          det.object_tag = CityObjectLabelNone)) := by
  have habsent : hit.Actor = none →
      ResolveSemantics Find hit.Actor = some (0, CityObjectLabelNone) := by
    intro h
    rw [h]
    rfl
  have hinvalid : ∀ a, hit.Actor = some a → (Find a).IsValid = false →
      ResolveSemantics Find hit.Actor = some (0, CityObjectLabelNone) := by
    intro a ha hval
    rw [ha]
    simp [ResolveSemantics, hval]
  have hfound : ∀ a info, hit.Actor = some a → (Find a).IsValid = true →
      (Find a).ActorInfo = some info →
      ResolveSemantics Find hit.Actor =
        some (info.UId,
          if info.SemanticTags.length = 1 then
            info.SemanticTags.headD CityObjectLabelNone
          else CityObjectLabelNone) := by
    intro a info ha hval hinfo
    rw [ha]
    simp [ResolveSemantics, hval, hinfo]
  refine ⟨?_, ?_, ?_, ?_⟩
  · rcases ha : hit.Actor with _ | a
    · exact ⟨_, ComputeRawDetection_of_resolve Find hit T (habsent ha)⟩
    · rcases hval : (Find a).IsValid with _ | _
      · exact ⟨_, ComputeRawDetection_of_resolve Find hit T
          (hinvalid a ha hval)⟩
      · obtain ⟨info, hinfo⟩ := Option.isSome_iff_exists.mp (hpre a hval)
        exact ⟨_, ComputeRawDetection_of_resolve Find hit T
          (hfound a info ha hval hinfo)⟩
  · intro ha
    exact ⟨_, ComputeRawDetection_of_resolve Find hit T (habsent ha),
      rfl, rfl⟩
  · intro a ha hval
    exact ⟨_, ComputeRawDetection_of_resolve Find hit T (hinvalid a ha hval),
      rfl, rfl⟩
  · intro a info ha hval hinfo
    refine ⟨_, ComputeRawDetection_of_resolve Find hit T
      (hfound a info ha hval hinfo), rfl, ?_, ?_⟩
    · intro hone
      simp [hone]
    · intro hmany
      simp [hmany]

/-- Witness for C5: a one-entry registry with a valid view carrying
`UId = 5` and the single semantic label `3`. -/
theorem c5_semantic_resolution_witness :
    (∀ h : Unit,
      ((fun _ : Unit => FActorView.mk true (some ⟨5, [3]⟩)) h).IsValid = true →
      (((fun _ : Unit => FActorView.mk true (some ⟨5, [3]⟩)) h).ActorInfo).isSome
        = true) ∧
    ((∃ det, ComputeRawDetection
        (fun _ : Unit => FActorView.mk true (some ⟨5, [3]⟩))
        (FHitResult.mk ⟨0, 0, 0⟩ ⟨0, 0, 0⟩ (some ()))
        (FTransform.mk ⟨1, 0, 0⟩ ⟨0, 1, 0⟩ ⟨0, 0, 1⟩ ⟨0, 0, 0⟩) = some det) ∧
    ((FHitResult.mk (H := Unit) ⟨0, 0, 0⟩ ⟨0, 0, 0⟩ (some ())).Actor = none →
      ∃ det, ComputeRawDetection
        (fun _ : Unit => FActorView.mk true (some ⟨5, [3]⟩))
        (FHitResult.mk ⟨0, 0, 0⟩ ⟨0, 0, 0⟩ (some ()))
        (FTransform.mk ⟨1, 0, 0⟩ ⟨0, 1, 0⟩ ⟨0, 0, 1⟩ ⟨0, 0, 0⟩) = some det ∧
        det.object_idx = 0 ∧ det.object_tag = CityObjectLabelNone) ∧
    (∀ a : Unit,
      (FHitResult.mk (H := Unit) ⟨0, 0, 0⟩ ⟨0, 0, 0⟩ (some ())).Actor = some a →
      ((fun _ : Unit => FActorView.mk true (some ⟨5, [3]⟩)) a).IsValid = false →
      ∃ det, ComputeRawDetection
        (fun _ : Unit => FActorView.mk true (some ⟨5, [3]⟩))
        (FHitResult.mk ⟨0, 0, 0⟩ ⟨0, 0, 0⟩ (some ()))
        (FTransform.mk ⟨1, 0, 0⟩ ⟨0, 1, 0⟩ ⟨0, 0, 1⟩ ⟨0, 0, 0⟩) = some det ∧
        det.object_idx = 0 ∧ det.object_tag = CityObjectLabelNone) ∧
    (∀ (a : Unit) (info : FActorInfo),
      (FHitResult.mk (H := Unit) ⟨0, 0, 0⟩ ⟨0, 0, 0⟩ (some ())).Actor = some a →
      ((fun _ : Unit => FActorView.mk true (some ⟨5, [3]⟩)) a).IsValid = true →
      ((fun _ : Unit => FActorView.mk true (some ⟨5, [3]⟩)) a).ActorInfo =
        some info →
      ∃ det, ComputeRawDetection
        (fun _ : Unit => FActorView.mk true (some ⟨5, [3]⟩))
        (FHitResult.mk ⟨0, 0, 0⟩ ⟨0, 0, 0⟩ (some ()))
        (FTransform.mk ⟨1, 0, 0⟩ ⟨0, 1, 0⟩ ⟨0, 0, 1⟩ ⟨0, 0, 0⟩) = some det ∧
        det.object_idx = info.UId ∧
        (info.SemanticTags.length = 1 →
          det.object_tag = info.SemanticTags.headD CityObjectLabelNone) ∧
        (info.SemanticTags.length ≠ 1 →
          det.object_tag = CityObjectLabelNone))) :=
  ⟨fun _ _ => rfl,
    c5_semantic_resolution (fun _ : Unit => FActorView.mk true (some ⟨5, [3]⟩))
      (fun _ _ => rfl)
      (FHitResult.mk ⟨0, 0, 0⟩ ⟨0, 0, 0⟩ (some ()))
      (FTransform.mk ⟨1, 0, 0⟩ ⟨0, 1, 0⟩ ⟨0, 0, 1⟩ ⟨0, 0, 0⟩)⟩

/-- Claim C10: in the source the actor-info pointer is dereferenced
(`ActorInfo->Description.UId`) before it is tested against null.  Under
the implicit precondition that every valid registry view carries a
non-null actor info, the resolution is total and coincides with the
guarded variant in which the test precedes the dereference — the null
branch is unreachable.  Without the precondition, a valid view with a
null info makes the dereference itself undefined. -/
theorem c10_deref_before_null_test {H : Type} (Find : H → FActorView)
    (hpre : ∀ h, (Find h).IsValid = true →
      ((Find h).ActorInfo).isSome = true) :
    (∀ a : Option H,
      ResolveSemantics Find a = some (ResolveSemanticsGuarded Find a)) ∧
    (∀ (Find2 : H → FActorView) (a : H), (Find2 a).IsValid = true →
      (Find2 a).ActorInfo = none →
      ResolveSemantics Find2 (some a) = none) := by
  constructor
  · intro a
    rcases a with _ | x
    · rfl
    · rcases hval : (Find x).IsValid with _ | _
      · simp [ResolveSemantics, ResolveSemanticsGuarded, hval]
      · obtain ⟨info, hinfo⟩ := Option.isSome_iff_exists.mp (hpre x hval)
        simp [ResolveSemantics, ResolveSemanticsGuarded, hval, hinfo]
  · intro Find2 a hval hnone
    simp [ResolveSemantics, hval, hnone]

/-- Witness for C10: a registry satisfying the precondition, and a
second registry with a valid view carrying a null info on which the
dereference is undefined. -/
theorem c10_deref_before_null_test_witness :
    (∀ h : Unit,
      ((fun _ : Unit => FActorView.mk true (some ⟨5, [3]⟩)) h).IsValid = true →
      (((fun _ : Unit => FActorView.mk true (some ⟨5, [3]⟩)) h).ActorInfo).isSome
        = true) ∧
    ((∀ a : Option Unit,
      ResolveSemantics (fun _ : Unit => FActorView.mk true (some ⟨5, [3]⟩)) a =
        some (ResolveSemanticsGuarded
          (fun _ : Unit => FActorView.mk true (some ⟨5, [3]⟩)) a)) ∧
    (∀ (Find2 : Unit → FActorView) (a : Unit), (Find2 a).IsValid = true →
      (Find2 a).ActorInfo = none →
      ResolveSemantics Find2 (some a) = none)) :=
  ⟨fun _ _ => rfl,
    c10_deref_before_null_test
      (fun _ : Unit => FActorView.mk true (some ⟨5, [3]⟩)) (fun _ _ => rfl)⟩

end Carla
